import Mathlib

/-!
Verification development for the idle-cave-miner-bot repository.

The repository contains two overlapping implementations of the same
scheduling logic: a structured one (src/bot.rs with src/stats.rs,
src/logger.rs, src/config.rs, src/types.rs) and a monolithic one
(src/main.rs), plus a generic timed-task helper (src/scheduler.rs).
This file embeds the scheduling, timing, logging and statistics logic
of those files shallowly:

- Instants and durations are natural numbers, in milliseconds. Rust
  Instant subtraction of an earlier instant (duration_since / elapsed)
  saturates at zero, which truncated Nat subtraction models exactly;
  Duration::saturating_sub is likewise Nat subtraction.
- Methods reading Instant::now() receive the current instant as an
  explicit parameter named now.
- Side effects on the simulated input device are reified as a list of
  InputEvent values; sleeps are events as well.
- u64 counters wrap modulo 2 ^ 64 (Rust release semantics); u64
  division is embedded as an Option, none standing for the
  divide-by-zero panic.
-/

namespace IdleCaveMiner

/- Monotonic timestamps (std::time::Instant) and non-negative time
spans (std::time::Duration) are both embedded as Nat, in milliseconds. -/

/- Timing constants from src/config.rs (impl Timings), converted to
milliseconds: UPGRADE_INTERVAL is 30 s, SOULS_INTERVAL and
PRESTIGE_INTERVAL are 600 s, the delays are 50 ms and 100 ms. The same
constants appear in src/main.rs lines 57-63. -/
namespace Timings

def MINING_DELAY : Nat := 50
def CLICK_DELAY : Nat := 50
def SCROLL_DELAY : Nat := 50
def POST_SCROLL_DELAY : Nat := 100
def UPGRADE_INTERVAL : Nat := 30000
def SOULS_INTERVAL : Nat := 600000
def PRESTIGE_INTERVAL : Nat := 600000

end Timings

/-- Task kinds, from src/types.rs (enum TaskType). -/
inductive TaskType where
  | Upgrades
  | Souls
  | Prestige
deriving DecidableEq, Repr

/-- The interval match used inside TaskManager::should_run_task
(src/bot.rs lines 68-72) and TaskManager::get_time_until_next
(src/bot.rs lines 93-97); both methods repeat this exact mapping. -/
def TaskType.intervalOf : TaskType → Nat
  | .Upgrades => Timings.UPGRADE_INTERVAL
  | .Souls => Timings.SOULS_INTERVAL
  | .Prestige => Timings.PRESTIGE_INTERVAL

/-- TaskManager from src/bot.rs lines 44-48: one last-run instant per
task, behind read-write locks (lock structure elided; the embedding is
sequential). -/
structure TaskManager where
  last_upgrade : Nat
  last_souls : Nat
  last_prestige : Nat
deriving DecidableEq, Repr

/-- The elapsed-source match repeated inside should_run_task
(src/bot.rs lines 62-66), update_last_run (lines 79-83) and
get_time_until_next (lines 87-91): which field belongs to which task. -/
def TaskManager.lastRun (tm : TaskManager) : TaskType → Nat
  | .Upgrades => tm.last_upgrade
  | .Souls => tm.last_souls
  | .Prestige => tm.last_prestige

/-- TaskManager::new (src/bot.rs lines 51-58): every last-run field is
initialized to the construction instant. -/
def TaskManager.new (now : Nat) : TaskManager :=
  { last_upgrade := now, last_souls := now, last_prestige := now }

/-- TaskManager::should_run_task (src/bot.rs lines 60-75): elapsed
time since the last run, strictly greater than the task interval.
now.duration_since(last) saturates at zero for an earlier now, as Nat
subtraction does. -/
def TaskManager.should_run_task (tm : TaskManager) (task_type : TaskType)
    (now : Nat) : Bool :=
  let elapsed := now - tm.lastRun task_type
  let interval := task_type.intervalOf
  decide (elapsed > interval)

/-- TaskManager::update_last_run (src/bot.rs lines 77-84): overwrite
the last-run field of the given task with the current instant. -/
def TaskManager.update_last_run (tm : TaskManager) (task_type : TaskType)
    (now : Nat) : TaskManager :=
  match task_type with
  | .Upgrades => { tm with last_upgrade := now }
  | .Souls => { tm with last_souls := now }
  | .Prestige => { tm with last_prestige := now }

/-- TaskManager::get_time_until_next (src/bot.rs lines 86-100):
interval.saturating_sub(elapsed), which is Nat subtraction. -/
def TaskManager.get_time_until_next (tm : TaskManager) (task_type : TaskType)
    (now : Nat) : Nat :=
  let elapsed := now - tm.lastRun task_type
  let interval := task_type.intervalOf
  interval - elapsed

/-- TimedTask from src/scheduler.rs lines 3-7. The action field is an
opaque boxed closure whose only observable effect on the scheduling
state is through run (which rewrites last_run); it is omitted from the
state model. -/
structure TimedTask where
  interval : Nat
  last_run : Nat
deriving DecidableEq, Repr

/-- TimedTask::new (src/scheduler.rs lines 10-19): the interval is
interval_secs seconds and last_run is seeded interval earlier than the
construction instant (Instant::now() - Duration::from_secs(interval_secs)). -/
def TimedTask.new (interval_secs : Nat) (now : Nat) : TimedTask :=
  { interval := interval_secs * 1000, last_run := now - interval_secs * 1000 }

/-- TimedTask::should_run (src/scheduler.rs lines 21-23):
last_run.elapsed() >= interval — a NON-strict comparison. -/
def TimedTask.should_run (t : TimedTask) (now : Nat) : Bool :=
  decide (now - t.last_run ≥ t.interval)

/-- TimedTask::run (src/scheduler.rs lines 25-28): invoke the action
(opaque, no scheduling-state effect) and set last_run to now. -/
def TimedTask.runAt (t : TimedTask) (now : Nat) : TimedTask :=
  { t with last_run := now }

/-- The u64 modulus. -/
def U64_MOD : Nat := 2 ^ 64

/-- Rust u64 division: panics when the divisor is zero, embedded as
none; otherwise truncating division. -/
def u64_div (a b : Nat) : Option Nat :=
  if b = 0 then none else some (a / b)

/-- Stats from src/stats.rs lines 7-10 (identical to the Stats struct
in src/main.rs lines 90-93): an atomic u64 click counter and a
session-start instant. -/
structure Stats where
  clicks : Nat
  session_start : Nat
deriving DecidableEq, Repr

/-- Stats::new (src/stats.rs lines 13-18): zero clicks, session start
at the construction instant. -/
def Stats.new (now : Nat) : Stats :=
  { clicks := 0, session_start := now }

/-- Stats::increment_clicks (src/stats.rs lines 20-22): u64
fetch_add(1), wrapping modulo 2 ^ 64. -/
def Stats.increment_clicks (s : Stats) : Stats :=
  { s with clicks := (s.clicks + 1) % U64_MOD }

/-- Stats::get_cpm (src/stats.rs lines 28-35, identical in src/main.rs
lines 111-118): elapsed whole seconds since session start; 0 when that
is 0, otherwise clicks * 60 (u64 multiplication, wrapping in release
builds) divided by the elapsed seconds. The division is embedded
through u64_div so that a divide-by-zero panic would surface as none. -/
def Stats.get_cpm (s : Stats) (now : Nat) : Option Nat :=
  let elapsed := (now - s.session_start) / 1000
  if elapsed = 0 then some 0
  else u64_div (s.clicks * 60 % U64_MOD) elapsed

/-- Stats::reset (src/stats.rs lines 41-44): clicks back to zero,
session start rewritten to the current instant. -/
def Stats.reset (_s : Stats) (now : Nat) : Stats :=
  { clicks := 0, session_start := now }

/-- Log severities, from src/logger.rs lines 7-13. -/
inductive LogLevel where
  | Info
  | Success
  | Warning
  | Error
  | Task
deriving DecidableEq, Repr

/-- A log record, from src/logger.rs lines 38-42; the wall-clock
timestamp is modelled with the same Nat instants as the rest. -/
structure LogEntry where
  timestamp : Nat
  level : LogLevel
  message : String
deriving DecidableEq, Repr

/-- MAX_LOGS from src/config.rs line 76 (UIConfig::MAX_LOGS); the
monolithic variant hardcodes the same bound 50 in src/main.rs line 204. -/
def UIConfig.MAX_LOGS : Nat := 50

/-- Logger::log (src/logger.rs lines 55-68): push the new entry at the
back, then drain the excess entries.len().saturating_sub(MAX_LOGS)
from the front whenever the length exceeds MAX_LOGS. -/
def Logger.log (entries : List LogEntry) (e : LogEntry) : List LogEntry :=
  let pushed := entries ++ [e]
  if pushed.length > UIConfig.MAX_LOGS then
    pushed.drop (pushed.length - UIConfig.MAX_LOGS)
  else
    pushed

/-- Logger::get_entries (src/logger.rs lines 70-72): a clone of the
entry list, in insertion order (oldest first). -/
def Logger.get_entries (entries : List LogEntry) : List LogEntry :=
  entries

/-- Display name of a task, TaskType::name from src/types.rs lines 27-33. -/
def TaskType.name : TaskType → String
  | .Upgrades => "Upgrades"
  | .Souls => "Souls"
  | .Prestige => "Prestige"

/-- The shared bot state: the four atomic flags of BotState (src/bot.rs
lines 26-42, defaults false / true / true / true) together with the
Stats, Logger and TaskManager fields of Bot (src/bot.rs lines 19-24).
The monolithic Bot in src/main.rs lines 78-88 carries the same data. -/
structure Bot where
  active : Bool
  upgrades_enabled : Bool
  souls_enabled : Bool
  prestige_enabled : Bool
  stats : Stats
  logs : List LogEntry
  task_manager : TaskManager
deriving DecidableEq, Repr

/-- Bot::new (src/bot.rs lines 104-111 with BotState::new lines 33-41):
inactive, every task enabled, fresh stats, empty log, task manager
seeded at the construction instant. -/
def Bot.new (now : Nat) : Bot :=
  { active := false
    upgrades_enabled := true
    souls_enabled := true
    prestige_enabled := true
    stats := Stats.new now
    logs := []
    task_manager := TaskManager.new now }

/-- Bot::is_task_enabled (src/bot.rs lines 280-286). -/
def Bot.is_task_enabled (b : Bot) : TaskType → Bool
  | .Upgrades => b.upgrades_enabled
  | .Souls => b.souls_enabled
  | .Prestige => b.prestige_enabled

/-- Bot::toggle (src/bot.rs lines 243-252, same logic in src/main.rs
lines 145-154): flip the master flag; on the inactive-to-active edge
reset the stats; log ACTIVATED at Success level or PAUSED at Warning
level. -/
def Bot.toggle (b : Bot) (now : Nat) : Bot :=
  let was_active := b.active
  let stats := if was_active then b.stats else b.stats.reset now
  let entry : LogEntry :=
    { timestamp := now
      level := if was_active then LogLevel.Warning else LogLevel.Success
      message := if was_active then "Bot PAUSED" else "Bot ACTIVATED" }
  { b with active := !was_active, stats := stats, logs := Logger.log b.logs entry }

/-- Bot::toggle_task (src/bot.rs lines 266-274, reached through
toggle_upgrades / toggle_souls / toggle_prestige lines 254-264): flip
the enabled flag of the given task and log ENABLED at Success level or
DISABLED at Error level. Nothing else is touched. -/
def Bot.toggle_task (b : Bot) (task_type : TaskType) (now : Nat) : Bot :=
  let was_enabled := b.is_task_enabled task_type
  let flipped :=
    match task_type with
    | .Upgrades => { b with upgrades_enabled := !b.upgrades_enabled }
    | .Souls => { b with souls_enabled := !b.souls_enabled }
    | .Prestige => { b with prestige_enabled := !b.prestige_enabled }
  let entry : LogEntry :=
    { timestamp := now
      level := if was_enabled then LogLevel.Error else LogLevel.Success
      message := task_type.name ++ " " ++ (if was_enabled then "DISABLED" else "ENABLED") }
  { flipped with logs := Logger.log flipped.logs entry }

/-- The per-task condition guarding each branch of
Bot::check_and_run_tasks (src/bot.rs lines 139, 145, 151) and
Bot::check_scheduled_tasks (src/main.rs lines 241, 248, 255): the
enabled flag AND the elapsed-beyond-interval test. -/
def Bot.task_gate (b : Bot) (task_type : TaskType) (now : Nat) : Bool :=
  b.is_task_enabled task_type && b.task_manager.should_run_task task_type now

/-- Executing one task in the tick: the perform_* call followed by the
last-run update (src/bot.rs lines 141-142, 147-148, 153-154). Each
perform_* sequence (src/bot.rs lines 158-223) logs a Task-level start
entry and a Success-level completion entry; its simulated-input calls
touch no scheduling state. -/
def Bot.run_task (b : Bot) (task_type : TaskType) (now : Nat) : Bot :=
  let started : LogEntry :=
    { timestamp := now, level := LogLevel.Task
      message := "Running " ++ task_type.name ++ "..." }
  let completed : LogEntry :=
    { timestamp := now, level := LogLevel.Success
      message := task_type.name ++ " complete" }
  { b with
    logs := Logger.log (Logger.log b.logs started) completed
    task_manager := b.task_manager.update_last_run task_type now }

/-- Bot::check_scheduled_tasks (src/main.rs lines 237-260): capture one
now at entry, then evaluate the three task gates sequentially in
declaration order (Upgrades, Souls, Prestige) and execute every task
whose gate holds, updating its last run to the captured now.
Bot::check_and_run_tasks (src/bot.rs lines 138-156) is the same
three-branch sequence with Instant::now() re-read inside each branch;
the embedding evaluates the whole tick at the single instant now. The
returned list records which tasks executed this tick, in order. -/
def Bot.check_scheduled_tasks (b : Bot) (now : Nat) : Bot × List TaskType :=
  let b1 := if b.task_gate TaskType.Upgrades now
            then b.run_task TaskType.Upgrades now else b
  let b2 := if b1.task_gate TaskType.Souls now
            then b1.run_task TaskType.Souls now else b1
  let b3 := if b2.task_gate TaskType.Prestige now
            then b2.run_task TaskType.Prestige now else b2
  (b3,
    (if b.task_gate TaskType.Upgrades now then [TaskType.Upgrades] else []) ++
    (if b1.task_gate TaskType.Souls now then [TaskType.Souls] else []) ++
    (if b2.task_gate TaskType.Prestige now then [TaskType.Prestige] else []))

/-- A screen coordinate, Position from src/types.rs lines 2-5. -/
structure Position where
  x : Int
  y : Int
deriving DecidableEq, Repr

/-- One primitive effect on the simulated input device or one sleep,
reifying the enigo calls and tokio sleeps made by Bot::scroll_at and
friends. -/
inductive InputEvent where
  | mouseMoveTo (x y : Int)
  | mouseClick
  | mouseScrollY (delta : Int)
  | sleepMs (ms : Nat)
deriving DecidableEq, Repr

/-- True exactly on low-level scroll calls. -/
def InputEvent.isScrollCall : InputEvent → Bool
  | .mouseScrollY _ => true
  | _ => false

/-- Rust i32::abs: the two's-complement absolute value, which on
i32::MIN = -2147483648 overflows — it panics under debug assertions and
wraps back to -2147483648 in release builds (the wrapping result is
used here). Arguments are assumed i32-representable. -/
def i32_abs (n : Int) : Int :=
  if n = -2147483648 then -2147483648
  else if n < 0 then -n else n

/-- Bot::scroll_at (src/bot.rs lines 232-240, same logic in src/main.rs
lines 338-350) as the list of input-device events it issues: move to
the position, sleep SCROLL_DELAY, then amount.abs() times a single-unit
vertical scroll — delta -1 when amount > 0, else +1 — each followed by
a POST_SCROLL_DELAY sleep. The Rust for-loop over 0..amount.abs() runs
toNat-many iterations: zero when the (possibly wrapped) bound is not
positive. -/
def scroll_at (pos : Position) (amount : Int) : List InputEvent :=
  InputEvent.mouseMoveTo pos.x pos.y ::
  InputEvent.sleepMs Timings.SCROLL_DELAY ::
  (List.replicate (i32_abs amount).toNat
    [InputEvent.mouseScrollY (if amount > 0 then -1 else 1),
     InputEvent.sleepMs Timings.POST_SCROLL_DELAY]).flatten

/-- Holds when every low-level scroll call in the event list is
immediately followed by a sleep of exactly POST_SCROLL_DELAY. -/
def scrolls_followed_by_delay : List InputEvent → Bool
  | [] => true
  | InputEvent.mouseScrollY _ :: InputEvent.sleepMs m :: rest =>
      (m == Timings.POST_SCROLL_DELAY) && scrolls_followed_by_delay rest
  | InputEvent.mouseScrollY _ :: _ => false
  | _ :: rest => scrolls_followed_by_delay rest

/-- C2: the claim as stated — that every due-ness test is the strict
inequality now - last_run > interval — is false: TimedTask::should_run
(src/scheduler.rs) is non-strict. At interval 30 and last_run 100, the
instant 130 sits exactly on the boundary (elapsed equals the interval):
should_run returns true although the strict inequality fails. -/
theorem c2_counterexample :
    TimedTask.should_run { interval := 30, last_run := 100 } 130 = true ∧
    ¬((130 - 100 : Nat) > 30) := by
  decide

/-- C2 (amended): TaskManager::should_run_task is the strict test —
false at exact boundary elapsed = interval, true exactly when
interval < elapsed, and false immediately after update_last_run —
while TimedTask::should_run is the non-strict test: true at exact
boundary equality, true exactly when interval ≤ elapsed. -/
theorem c2_due_test_strictness :
    (∀ (tm : TaskManager) (tt : TaskType),
      tm.should_run_task tt (tm.lastRun tt + tt.intervalOf) = false) ∧
    (∀ (tm : TaskManager) (tt : TaskType) (now : Nat),
      tm.should_run_task tt now = true ↔ tt.intervalOf < now - tm.lastRun tt) ∧
    (∀ (tm : TaskManager) (tt : TaskType) (now : Nat),
      (tm.update_last_run tt now).should_run_task tt now = false) ∧
    (∀ (i l : Nat), TimedTask.should_run { interval := i, last_run := l } (l + i) = true) ∧
    (∀ (t : TimedTask) (now : Nat),
      t.should_run now = true ↔ t.interval ≤ now - t.last_run) := by
  refine ⟨?_, ?_, ?_, ?_, ?_⟩
  · intro tm tt
    simp [TaskManager.should_run_task]
  · intro tm tt now
    simp [TaskManager.should_run_task]
  · intro tm tt now
    cases tt <;>
      simp [TaskManager.should_run_task, TaskManager.update_last_run, TaskManager.lastRun]
  · intro i l
    simp [TimedTask.should_run]
  · intro t now
    simp [TimedTask.should_run]

/-- C2 witness: the amended theorem applied at a concrete task manager
and the exact boundary instant. -/
theorem c2_witness :
    (TaskManager.new 5).should_run_task TaskType.Upgrades
      ((TaskManager.new 5).lastRun TaskType.Upgrades + TaskType.intervalOf TaskType.Upgrades)
      = false :=
  c2_due_test_strictness.1 (TaskManager.new 5) TaskType.Upgrades

/-- C3: the claim as stated is false for TaskManager::new (src/bot.rs):
it seeds every last-run field to the construction instant itself, not
into the past, so at the construction instant no task is due. -/
theorem c3_counterexample :
    (TaskManager.new 0).last_upgrade = 0 ∧
    (TaskManager.new 0).should_run_task TaskType.Upgrades 0 = false := by
  decide

/-- C3 (amended): TaskManager::new seeds every last-run field to the
construction instant, so no task is due at construction; only
TimedTask::new (src/scheduler.rs) seeds last_run exactly one interval
into the past, and such a task is due at its construction instant
(through its non-strict test). For the 30-second Upgrades interval,
after a run at instant r the task is not due at r + 29 s, still not due
at the exact boundary r + 30 s, and due at r + 31 s. -/
theorem c3_initial_seeding :
    (∀ now : Nat, TaskManager.new now =
        { last_upgrade := now, last_souls := now, last_prestige := now }) ∧
    (∀ (now : Nat) (tt : TaskType),
        (TaskManager.new now).should_run_task tt now = false) ∧
    (∀ (secs now : Nat), secs * 1000 ≤ now →
        (TimedTask.new secs now).last_run + secs * 1000 = now ∧
        (TimedTask.new secs now).should_run now = true) ∧
    (∀ (tm : TaskManager) (r : Nat),
        (tm.update_last_run TaskType.Upgrades r).should_run_task TaskType.Upgrades (r + 29000) = false ∧
        (tm.update_last_run TaskType.Upgrades r).should_run_task TaskType.Upgrades (r + 30000) = false ∧
        (tm.update_last_run TaskType.Upgrades r).should_run_task TaskType.Upgrades (r + 31000) = true) := by
  refine ⟨fun _ => rfl, ?_, ?_, ?_⟩
  · intro now tt
    cases tt <;> simp [TaskManager.new, TaskManager.should_run_task, TaskManager.lastRun]
  · intro secs now h
    constructor
    · simp only [TimedTask.new]
      omega
    · simp only [TimedTask.new, TimedTask.should_run, ge_iff_le, decide_eq_true_eq]
      omega
  · intro tm r
    refine ⟨?_, ?_, ?_⟩ <;>
      simp [TaskManager.update_last_run, TaskManager.should_run_task, TaskManager.lastRun,
        TaskType.intervalOf, Timings.UPGRADE_INTERVAL]

/-- C3 witness: the amended theorem applied to a TimedTask constructed
with a 30 second interval at instant 60000. -/
theorem c3_witness :
    (TimedTask.new 30 60000).last_run + 30 * 1000 = 60000 ∧
    (TimedTask.new 30 60000).should_run 60000 = true :=
  c3_initial_seeding.2.2.1 30 60000 (by decide)

/-- C5: toggling the master flag while inactive resets the click
counter to zero and restarts the session start at the toggle instant;
toggling while active flips the flag but leaves the stats untouched. -/
theorem c5_toggle_master :
    ∀ (b : Bot) (now : Nat),
      ((b.toggle now).active = !b.active) ∧
      (b.active = false →
        (b.toggle now).stats.clicks = 0 ∧ (b.toggle now).stats.session_start = now) ∧
      (b.active = true → (b.toggle now).stats = b.stats) := by
  intro b now
  refine ⟨rfl, ?_, ?_⟩ <;> intro h <;> simp [Bot.toggle, Stats.reset, h]

/-- C5 witness: toggling a freshly constructed (inactive) bot at
instant 7 resets the stats to zero clicks and session start 7. -/
theorem c5_witness :
    ((Bot.new 0).toggle 7).stats.clicks = 0 ∧
    ((Bot.new 0).toggle 7).stats.session_start = 7 :=
  (c5_toggle_master (Bot.new 0) 7).2.1 rfl

/-- C6: time-until-next equals the interval minus the elapsed time
under saturating subtraction — as an integer it is the maximum of zero
and interval - (now - last_run), hence never negative, and it is zero
whenever the elapsed time reaches or exceeds the interval. -/
theorem c6_time_remaining_saturating :
    ∀ (tm : TaskManager) (tt : TaskType) (now : Nat),
      (tm.lastRun tt ≤ now →
        ((tm.get_time_until_next tt now : Int) =
          max 0 ((tt.intervalOf : Int) - ((now : Int) - (tm.lastRun tt : Int))))) ∧
      (tt.intervalOf ≤ now - tm.lastRun tt → tm.get_time_until_next tt now = 0) := by
  intro tm tt now
  constructor
  · intro h
    simp only [TaskManager.get_time_until_next]
    omega
  · intro h
    simp only [TaskManager.get_time_until_next]
    omega

/-- C6 witness: the theorem applied to a fresh task manager, the Souls
task and instant 700000 (elapsed exceeds the 600000 ms interval, so
the remaining time saturates to zero). -/
theorem c6_witness :
    ((TaskManager.new 0).get_time_until_next TaskType.Souls 700000 : Int) =
      max 0 ((TaskType.intervalOf TaskType.Souls : Int) - ((700000 : Int) - ((TaskManager.new 0).lastRun TaskType.Souls : Int))) ∧
    (TaskManager.new 0).get_time_until_next TaskType.Souls 700000 = 0 := by
  have h := c6_time_remaining_saturating (TaskManager.new 0) TaskType.Souls 700000
  exact ⟨h.1 (by decide), h.2 (by decide)⟩

/-- C7: the clicks-per-minute computation never reaches the division
with a zero divisor (the result is always some value): it returns 0
when the elapsed whole seconds are 0, and otherwise — for any click
count whose u64 product with 60 does not wrap — clicks times 60
divided by the elapsed seconds. -/
theorem c7_get_cpm_guarded :
    ∀ (s : Stats) (now : Nat),
      ((s.get_cpm now).isSome = true) ∧
      ((now - s.session_start) / 1000 = 0 → s.get_cpm now = some 0) ∧
      ((now - s.session_start) / 1000 ≠ 0 → s.clicks * 60 < U64_MOD →
        s.get_cpm now = some (s.clicks * 60 / ((now - s.session_start) / 1000))) := by
  intro s now
  refine ⟨?_, ?_, ?_⟩
  · by_cases h : (now - s.session_start) / 1000 = 0 <;>
      simp [Stats.get_cpm, u64_div, h]
  · intro h
    simp [Stats.get_cpm, h]
  · intro h hb
    simp [Stats.get_cpm, u64_div, h, Nat.mod_eq_of_lt hb]

/-- C7 witness: 100 clicks over 5 elapsed seconds yield 1200 clicks
per minute, with no division fault. -/
theorem c7_witness :
    (Stats.mk 100 0).get_cpm 5000 = some 1200 := by
  have h := (c7_get_cpm_guarded (Stats.mk 100 0) 5000).2.2 (by decide) (by decide)
  simpa using h

/-- C8: toggling the enabled flag of a task never touches the task
manager (no last-run change in either direction), flips exactly that
flag, and a disabled task's gate — the conjunction guarding execution —
is false regardless of elapsed time; in particular toggling an enabled
task off makes its gate false at any instant. -/
theorem c8_toggle_task_frame :
    ∀ (b : Bot) (tt : TaskType) (now : Nat),
      ((b.toggle_task tt now).task_manager = b.task_manager) ∧
      ((b.toggle_task tt now).is_task_enabled tt = !b.is_task_enabled tt) ∧
      (b.is_task_enabled tt = false → b.task_gate tt now = false) ∧
      (b.is_task_enabled tt = true → (b.toggle_task tt now).task_gate tt now = false) := by
  intro b tt now
  refine ⟨?_, ?_, ?_, ?_⟩
  · cases tt <;> rfl
  · cases tt <;> simp [Bot.toggle_task, Bot.is_task_enabled]
  · intro h
    simp [Bot.task_gate, h]
  · intro h
    cases tt <;>
      simp_all [Bot.toggle_task, Bot.task_gate, Bot.is_task_enabled]

/-- C8 witness: disabling the Souls task of a fresh bot makes its gate
false at instant 700000, where the elapsed time (700000 ms) far
exceeds the 600000 ms interval. -/
theorem c8_witness :
    ((Bot.new 0).toggle_task TaskType.Souls 700000).task_gate TaskType.Souls 700000 = false :=
  (c8_toggle_task_frame (Bot.new 0) TaskType.Souls 700000).2.2.2 rfl

/-- C10: whenever should_run_task answers true at an instant,
get_time_until_next at the same instant is zero; and the only
situation with zero remaining time but a not-yet-due task is the exact
boundary where the elapsed time equals the interval. -/
theorem c10_due_implies_zero_remaining :
    ∀ (tm : TaskManager) (tt : TaskType) (now : Nat),
      (tm.should_run_task tt now = true → tm.get_time_until_next tt now = 0) ∧
      ((tm.get_time_until_next tt now = 0 ∧ tm.should_run_task tt now = false) ↔
        now - tm.lastRun tt = tt.intervalOf) := by
  intro tm tt now
  simp only [TaskManager.should_run_task, TaskManager.get_time_until_next,
    gt_iff_lt, decide_eq_true_eq, decide_eq_false_iff_not, not_lt]
  omega

/-- C10 witness: a due task (fresh manager, Upgrades, instant 30001)
has zero remaining time. -/
theorem c10_witness :
    (TaskManager.new 0).get_time_until_next TaskType.Upgrades 30001 = 0 :=
  (c10_due_implies_zero_remaining (TaskManager.new 0) TaskType.Upgrades 30001).1 (by decide)

/-- One append keeps exactly the most recent MAX_LOGS entries of the
extended list. -/
lemma logger_log_eq (l : List LogEntry) (e : LogEntry) :
    Logger.log l e = (l ++ [e]).drop ((l ++ [e]).length - UIConfig.MAX_LOGS) := by
  simp only [Logger.log]
  split_ifs with hlen
  · rfl
  · have h0 : (l ++ [e]).length - UIConfig.MAX_LOGS = 0 := by
      simp only [UIConfig.MAX_LOGS] at *
      omega
    rw [h0, List.drop_zero]

/-- Folding appends over any capped starting list keeps exactly the
most recent MAX_LOGS elements of start-plus-appends, in order. -/
lemma foldl_log_drop (es : List LogEntry) :
    ∀ l : List LogEntry, l.length ≤ UIConfig.MAX_LOGS →
      es.foldl Logger.log l = (l ++ es).drop ((l ++ es).length - UIConfig.MAX_LOGS) := by
  induction es with
  | nil =>
    intro l h
    simp only [List.foldl_nil, List.append_nil]
    have h0 : l.length - UIConfig.MAX_LOGS = 0 := by
      simp only [UIConfig.MAX_LOGS] at *
      omega
    rw [h0, List.drop_zero]
  | cons e es ih =>
    intro l h
    have key := logger_log_eq l e
    have hlen2 : (Logger.log l e).length ≤ UIConfig.MAX_LOGS := by
      rw [key, List.length_drop]
      omega
    rw [List.foldl_cons, ih (Logger.log l e) hlen2, key]
    have hk : (l ++ [e]).length - UIConfig.MAX_LOGS ≤ (l ++ [e]).length := Nat.sub_le _ _
    have hshape : (l ++ [e]) ++ es = l ++ e :: es := by
      simp
    rw [← List.drop_append_of_le_length hk, List.drop_drop, hshape]
    congr 1
    rw [List.length_drop]
    have hb : (l ++ [e]).length = l.length + 1 := by simp
    have hc : (l ++ e :: es).length = l.length + 1 + es.length := by
      simp
      omega
    rw [hb, hc]
    simp only [UIConfig.MAX_LOGS] at h ⊢
    omega

/-- C4: starting from the empty log, after any finite sequence of
appends the activity log holds at most MAX_LOGS = 50 entries, and
those entries are exactly the most recently appended ones in their
original insertion order (oldest first, as the snapshot returns them);
the oldest entries beyond the cap are the ones evicted. -/
theorem c4_log_fifo_cap :
    ∀ es : List LogEntry,
      Logger.get_entries (es.foldl Logger.log []) =
        es.drop (es.length - UIConfig.MAX_LOGS) ∧
      (es.foldl Logger.log []).length ≤ UIConfig.MAX_LOGS := by
  intro es
  have h := foldl_log_drop es [] (by simp)
  simp only [List.nil_append] at h
  constructor
  · rw [Logger.get_entries, h]
  · rw [h, List.length_drop]
    omega

/-- The wrapped absolute value agrees with natAbs on every value
strictly above the i32 minimum. -/
lemma i32_abs_toNat {n : Int} (h : -2147483648 < n) : (i32_abs n).toNat = n.natAbs := by
  simp only [i32_abs]
  split_ifs with h1 h2
  · omega
  · omega
  · omega

/-- Counting scroll calls in the repeated scroll-then-sleep block. -/
lemma countP_replicate_scroll (k : Nat) (d : Int) (m : Nat) :
    ((List.replicate k [InputEvent.mouseScrollY d, InputEvent.sleepMs m]).flatten.countP
      InputEvent.isScrollCall) = k := by
  induction k with
  | zero => rfl
  | succ n ih =>
    simp [List.replicate_succ, List.countP_cons, InputEvent.isScrollCall, ih]

/-- Every element of the repeated scroll-then-sleep block is one of
its two events. -/
lemma mem_replicate_scroll {k : Nat} {d : Int} {m : Nat} {e : InputEvent}
    (he : e ∈ (List.replicate k [InputEvent.mouseScrollY d, InputEvent.sleepMs m]).flatten) :
    e = InputEvent.mouseScrollY d ∨ e = InputEvent.sleepMs m := by
  rw [List.mem_flatten] at he
  obtain ⟨a, ha, hea⟩ := he
  rw [List.mem_replicate] at ha
  rw [ha.2] at hea
  simpa using hea

/-- In the repeated block with the post-scroll delay, every scroll
call is immediately followed by that delay. -/
lemma sfd_replicate_scroll (k : Nat) (d : Int) :
    scrolls_followed_by_delay
      ((List.replicate k
        [InputEvent.mouseScrollY d, InputEvent.sleepMs Timings.POST_SCROLL_DELAY]).flatten)
      = true := by
  induction k with
  | zero => rfl
  | succ n ih =>
    simp only [List.replicate_succ, List.flatten_cons, List.cons_append, List.nil_append,
      scrolls_followed_by_delay]
    simpa using ih

/-- C9: the claim as stated — that ScrollBy issues exactly the
absolute number of unit scroll calls for every signed amount — fails
at the i32 minimum -2147483648: its absolute value, 2147483648,
overflows i32, so amount.abs() wraps (release builds; debug builds
panic) and the loop runs zero times, issuing zero scroll calls. -/
theorem c9_counterexample :
    (scroll_at { x := 1030, y := 630 } (-2147483648)).countP InputEvent.isScrollCall = 0 ∧
    Int.natAbs (-2147483648) = 2147483648 ∧ (0 : Nat) ≠ 2147483648 := by
  refine ⟨?_, by decide, by decide⟩
  rfl

/-- C9 (amended): for every signed scroll amount n strictly above the
i32 minimum (so that the absolute value is representable), executing
ScrollBy(n) issues exactly natAbs n low-level unit scroll calls, every
scroll call carries delta -1 when n is positive and +1 otherwise
(sign inverted from n), and every scroll call is immediately followed
by the fixed post-scroll delay. -/
theorem c9_scroll_at_spec :
    ∀ (pos : Position) (amount : Int), -2147483648 < amount →
      ((scroll_at pos amount).countP InputEvent.isScrollCall = amount.natAbs) ∧
      (∀ e ∈ scroll_at pos amount, e.isScrollCall = true →
        e = InputEvent.mouseScrollY (if amount > 0 then -1 else 1)) ∧
      scrolls_followed_by_delay (scroll_at pos amount) = true := by
  intro pos amount h
  have habs : (i32_abs amount).toNat = amount.natAbs := i32_abs_toNat h
  refine ⟨?_, ?_, ?_⟩
  · simp [scroll_at, List.countP_cons, InputEvent.isScrollCall, habs,
      countP_replicate_scroll]
  · intro e he hscroll
    simp only [scroll_at, List.mem_cons] at he
    rcases he with rfl | rfl | he
    · simp [InputEvent.isScrollCall] at hscroll
    · simp [InputEvent.isScrollCall] at hscroll
    · rcases mem_replicate_scroll he with rfl | rfl
      · rfl
      · simp [InputEvent.isScrollCall] at hscroll
  · simp only [scroll_at, scrolls_followed_by_delay]
    exact sfd_replicate_scroll _ _

/-- C9 witness: the scroll amount -8 used by the upgrades sequence
issues exactly 8 unit scroll calls, each followed by the post-scroll
delay. -/
theorem c9_witness :
    (scroll_at { x := 1030, y := 630 } (-8)).countP InputEvent.isScrollCall = 8 ∧
    scrolls_followed_by_delay (scroll_at { x := 1030, y := 630 } (-8)) = true := by
  have h := c9_scroll_at_spec { x := 1030, y := 630 } (-8) (by decide)
  exact ⟨by simpa using h.1, h.2.2⟩

/-- Executing one task leaves every enabled flag unchanged. -/
@[simp] lemma run_task_is_task_enabled (b : Bot) (tt tt2 : TaskType) (now : Nat) :
    (b.run_task tt now).is_task_enabled tt2 = b.is_task_enabled tt2 := by
  cases tt2 <;> rfl

/-- Executing one task rewrites exactly that task's last-run field to
the tick instant and preserves the others. -/
@[simp] lemma run_task_lastRun (b : Bot) (tt tt2 : TaskType) (now : Nat) :
    (b.run_task tt now).task_manager.lastRun tt2 =
      if tt2 = tt then now else b.task_manager.lastRun tt2 := by
  cases tt <;> cases tt2 <;>
    simp [Bot.run_task, TaskManager.update_last_run, TaskManager.lastRun]

/-- The gate of a different task is unchanged by executing a task. -/
@[simp] lemma run_task_gate_other (b : Bot) (tt tt2 : TaskType) (now : Nat)
    (hne : tt2 ≠ tt) :
    (b.run_task tt now).task_gate tt2 now = b.task_gate tt2 now := by
  simp [Bot.task_gate, TaskManager.should_run_task, hne]

/-- C1: the claim as stated — at most one due task executes per tick —
is false: with every task enabled, all last-run fields at 0 and the
tick instant 600001 ms, all three tasks are past their intervals and
the tick executes all three, not one. -/
theorem c1_counterexample :
    ((({ active := true, upgrades_enabled := true, souls_enabled := true,
         prestige_enabled := true, stats := Stats.new 0, logs := [],
         task_manager := TaskManager.new 0 } : Bot).check_scheduled_tasks 600001).2 =
      [TaskType.Upgrades, TaskType.Souls, TaskType.Prestige]) ∧
    ¬((({ active := true, upgrades_enabled := true, souls_enabled := true,
          prestige_enabled := true, stats := Stats.new 0, logs := [],
          task_manager := TaskManager.new 0 } : Bot).check_scheduled_tasks 600001).2.length ≤ 1) := by
  constructor
  · rfl
  · decide

/-- C1 (amended): in one tick, every task that is enabled and due at
the tick's captured instant executes — sequentially, in declaration
order Upgrades, Souls, Prestige — and each executed task's last-run
field is rewritten to that instant, the others staying unchanged.
Simultaneously due tasks therefore all run within the same tick rather
than one per tick. -/
theorem c1_check_runs_every_due_task :
    ∀ (b : Bot) (now : Nat),
      ((b.check_scheduled_tasks now).2 =
        [TaskType.Upgrades, TaskType.Souls, TaskType.Prestige].filter
          (fun tt => b.task_gate tt now)) ∧
      (∀ tt, (b.check_scheduled_tasks now).1.task_manager.lastRun tt =
        if b.task_gate tt now then now else b.task_manager.lastRun tt) := by
  intro b now
  have hS : ∀ b2 : Bot, (if b.task_gate TaskType.Upgrades now
      then b.run_task TaskType.Upgrades now else b) = b2 →
      b2.task_gate TaskType.Souls now = b.task_gate TaskType.Souls now := by
    intro b2 hb2
    subst hb2
    split_ifs with h
    · simp
    · rfl
  constructor
  · cases hU : b.task_gate TaskType.Upgrades now <;>
      cases hSouls : b.task_gate TaskType.Souls now <;>
        cases hP : b.task_gate TaskType.Prestige now <;>
          simp [Bot.check_scheduled_tasks, hU, hSouls, hP, List.filter]
  · intro tt
    cases hU : b.task_gate TaskType.Upgrades now <;>
      cases hSouls : b.task_gate TaskType.Souls now <;>
        cases hP : b.task_gate TaskType.Prestige now <;>
          cases tt <;>
            simp [Bot.check_scheduled_tasks, hU, hSouls, hP]

end IdleCaveMiner
